import Mathlib

/-!
A verification development for the gForms dynamic type-inference and
schema-synthesis engine (`gforms.py`).

The Python module is shallowly embedded: Python runtime values (including
materialized `HasTraits` model instances, which in Python are themselves
values) are one inductive type `PyVal`; dynamically created model classes
are `DynClass`; the process-wide registries (`_api_types_to_trait` and
`__dynamically_created_classes`) are explicit association-list state
threaded through the synthesis functions.  Recursive synthesis is
expressed with an explicit fuel parameter; exhausted fuel surfaces as the
artificial error `Err.fuelOut`, which concrete evaluations never reach
when given enough fuel.  Python exceptions are the other constructors of
`Err`, and fallible operations return `Except Err`.
-/

/-- Exceptions of the embedded fragment.  `traitError` stands for
`traits.TraitError`, `typeError` for Python `TypeError` (e.g. calling
`None`), `keyError` for `KeyError`, `attrError` for `AttributeError`.
`fuelOut` is the embedding artifact for exhausted recursion fuel. -/
inductive Err where
  | traitError
  | typeError
  | keyError
  | attrError
  | fuelOut
deriving DecidableEq, Repr

/-- Trait kinds occurring in the synthesis pipeline: the base trait types
from `_base_types_to_trait` (`Bool`, `Int`, `CStr`, `Generic`), `Any`,
`Instance(klass, ())` (by class name), and `List(t, editor=...)` of a base
item trait (this also covers `ListOfStr`). -/
inductive TraitK where
  | tBool
  | tInt
  | tCStr
  | tGeneric
  | tAny
  | tInstOf (cls : String)
  | tListOfBase (item : TraitK)
deriving DecidableEq, Repr

mutual
/-- Python runtime values of the embedded fragment.  The first seven
constructors are plain data (`bool`, `int`, `str`, `None`, `dict`, `list`,
and an attribute-bag object of a named class).  The last four are the
materialized trait objects the engine creates: `ClassModel` instances
(carrying the class name, the `__orig_obj` back-reference, the class-trait
table and the assigned fields), `GenericTrait` instances (back-reference,
`__is_list`, `__is_dict`, fields), `ListClassModel` instances (class name,
`_inner_type`, `_orig_class`, `_matrix`), and the result of calling an
api-registered raw trait handler. -/
inductive PyVal where
  | vBool (b : Bool)
  | vInt (n : Int)
  | vStr (s : String)
  | vNone
  | vDict (kvs : List (String × PyVal))
  | vList (xs : List PyVal)
  | vObj (cls : String) (attrs : List (String × PyVal))
  | classModelInst (cls : String) (origObj : Option PyVal)
      (ctraits : List (String × TraitK)) (fields : List (String × PyVal))
  | genericTraitInst (origObj : Option PyVal) (asList : Bool) (asDict : Bool)
      (fields : List (String × PyVal))
  | listModelInst (cls : String) (inner : InnerT) (origCls : Option String)
      (matrix : List PyVal)
  | traitObjVal (t : TraitK)

/-- The `_inner_type` of a list model class: unset (`None`), `Any`, or a
model class whose instances the list holds. -/
inductive InnerT where
  | innerNone
  | innerAny
  | innerModel (c : DynClass)

/-- A schema: either a (hand-authored or dynamically created) `ClassModel`
subclass with its class-trait table and `_templates`, a dynamically
created `ListClassModel` subclass (`_create_ListClass`), or a raw trait
handler value registered through `register_api_type_handler` (the
`isinstance(t, List)` case of `set_init`). -/
inductive DynClass where
  | modelClass (name : String) (ctraits : List (String × TraitK))
      (templates : List (String × List (String × PyVal)))
  | listClass (name : String) (inner : InnerT) (origCls : Option String)
  | listTraitH (item : TraitK)
end

open PyVal DynClass InnerT TraitK

/-- Association-list lookup, first binding wins (models Python `dict.get`
over our canonical representation). -/
def lookupA {α : Type} : List (String × α) → String → Option α
  | [], _ => none
  | (k, v) :: rest, key => if k == key then some v else lookupA rest key

/-- Association-list insert/overwrite (models Python `d[k] = v`): the new
binding shadows any previous one. -/
def insertA {α : Type} (l : List (String × α)) (k : String) (v : α) :
    List (String × α) :=
  (k, v) :: l

/-- `__name__` of a dynamic class. -/
def className : DynClass → String
  | .modelClass n _ _ => n
  | .listClass n _ _ => n
  | .listTraitH _ => "List"

/-- `_type_func(obj).__name__`: the runtime type name of a value. -/
def type_name : PyVal → String
  | vBool _ => "bool"
  | vInt _ => "int"
  | vStr _ => "str"
  | vNone => "NoneType"
  | vDict _ => "dict"
  | vList _ => "list"
  | vObj cls _ => cls
  | classModelInst cls _ _ _ => cls
  | genericTraitInst _ _ _ _ => "GenericTrait"
  | listModelInst cls _ _ _ => cls
  | traitObjVal _ => "TraitType"

/-- `_is_list(obj)`: `hasattr(obj, "__add__") and hasattr(obj, "__len__")`.
Among the embedded values only `str` and `list` have both (ints/bools have
`__add__` but no `__len__`, dicts have `__len__` but no `__add__`,
`HasTraits` instances have neither — `ListClassModel` defines `__add__`
but not `__len__`). -/
def is_list : PyVal → Bool
  | vStr _ => true
  | vList _ => true
  | _ => false

/-- `type(val) in _registered_base_types` (issubclass against the keys of
`_base_types_to_trait`; of the embedded values: bool, int, str, NoneType). -/
def is_base_val : PyVal → Bool
  | vBool _ => true
  | vInt _ => true
  | vStr _ => true
  | vNone => true
  | _ => false

/-- `_registered_base_types[type(value)]`: the base trait for a base-typed
value (`bool → Bool`, `int → Int`, `str → CStr`, `NoneType → Generic`). -/
def base_trait_of : PyVal → TraitK
  | vBool _ => tBool
  | vInt _ => tInt
  | vStr _ => tCStr
  | _ => tGeneric

/-- Is the runtime type name that of a registered base type? (used on the
element type computed by `create_list_trait`). -/
def is_base_name (t : String) : Bool :=
  t == "bool" || t == "int" || t == "str" || t == "NoneType"

/-- `isinstance(obj, HasTraits)`. -/
def is_has_traits : PyVal → Bool
  | classModelInst _ _ _ _ => true
  | genericTraitInst _ _ _ _ => true
  | listModelInst _ _ _ _ => true
  | _ => false

/-- `vars(obj)`: the attribute bag of a plain object; raises `TypeError`
(here: `none`) for anything else in the embedded fragment. -/
def vars_of : PyVal → Option (List (String × PyVal))
  | vObj _ attrs => some attrs
  | _ => none

/-- `iter(obj)` for list-like values: the elements of a list, or the
one-character strings of a string. -/
def elems_of : PyVal → List PyVal
  | vList xs => xs
  | vStr s => s.data.map (fun c => vStr (String.mk [c]))
  | _ => []

/-- `hasattr(obj, "__dict__")` for the head of a homogeneous list of
unknown type (plain attribute-bag objects have one). -/
def obj_has_dict : PyVal → Bool
  | vObj _ _ => true
  | _ => false

/-- Does a value pass `isinstance(value, klass)` for a model/list class
name?  `Instance(ListClassModel)` accepts every list-model instance
because all dynamic list classes subclass `ListClassModel`. -/
def validates_inst (cls : String) : PyVal → Bool
  | classModelInst c _ _ _ => c == cls
  | genericTraitInst _ _ _ _ => cls == "GenericTrait"
  | listModelInst c _ _ _ => c == cls || cls == "ListClassModel"
  | _ => false

/-- Does a value validate against a trait kind (`validate_trait`
semantics)?  `CStr` accepts everything (it casts via `str`), `Int` accepts
ints and bools (`isinstance(True, int)` holds), `Generic`/`Any` accept
everything, `Instance(klass, ())` accepts instances of the class and —
by the traits library's `allow_none=True` default — `None`, `List(t)`
accepts lists whose items all validate against the item trait. -/
def validate_trait : TraitK → PyVal → Bool
  | tBool, vBool _ => true
  | tBool, _ => false
  | tInt, vInt _ => true
  | tInt, vBool _ => true
  | tInt, _ => false
  | tCStr, _ => true
  | tGeneric, _ => true
  | tAny, _ => true
  | tInstOf _, vNone => true
  | tInstOf cls, v => validates_inst cls v
  | tListOfBase item, vList xs => xs.all (fun x => validate_trait item x)
  | tListOfBase _, _ => false

/-- `str(value)` for embedded values (used by the `CStr` cast). -/
def py_str : PyVal → String
  | vBool b => if b then "True" else "False"
  | vInt n => toString n
  | vStr s => s
  | vNone => "None"
  | _ => "<object>"

/-- The value actually stored by a trait assignment: `CStr` casts the
value via `str`, every other trait stores the validated value unchanged.
Returns `none` (a `TraitError`) when validation fails. -/
def coerce_assign (t : TraitK) (v : PyVal) : Option PyVal :=
  if validate_trait t v then
    match t with
    | tCStr => some (vStr (py_str v))
    | _ => some v
  else none

/-- The default value of a trait kind (`Bool → False`, `Int → 0`,
`CStr → ""`, `Generic`/`Any` → `None`).  `Instance` defaults, which traits
would construct lazily, and `List` defaults are modelled as `None` and the
empty list; no theorem depends on them. -/
def default_of : TraitK → PyVal
  | tBool => vBool false
  | tInt => vInt 0
  | tCStr => vStr ""
  | tListOfBase _ => vList []
  | _ => vNone

/-- The process-wide registries: `_api_types_to_trait` (caller-registered
handlers) and `__dynamically_created_classes`. -/
structure Reg where
  api : List (String × DynClass)
  dyn : List (String × DynClass)

/-- The registries at process start: both empty. -/
def emptyReg : Reg := ⟨[], []⟩

/-- `get_obj_t(obj_t)`: the handler for a type name, api registrations
taking precedence (`_api_types_to_trait.get(n) or
__dynamically_created_classes.get(n)`; classes are truthy). -/
def get_obj_t (reg : Reg) (clsName : String) : Option DynClass :=
  (lookupA reg.api clsName).or (lookupA reg.dyn clsName)

/-- `_getClassListOf(innerClass)`: pure lookup of `"ListOf" + name`. -/
def getClassListOf (reg : Reg) (innerName : String) : Option DynClass :=
  lookupA reg.dyn ("ListOf" ++ innerName)

/-- `_create_ListClass(name, innerClass, orig_class)`: create the dynamic
list class and store it under its name. -/
def create_ListClass (reg : Reg) (name : String) (innerClass : DynClass)
    (origCls : Option String) : DynClass × Reg :=
  let c := DynClass.listClass name (InnerT.innerModel innerClass) origCls
  (c, { reg with dyn := insertA reg.dyn name c })

/-- `_get_or_create_ClassListOf(innerClass, orig_class)`: return the
stored list class for `"ListOf" + innerClass.__name__` or create it. -/
def get_or_create_ClassListOf (reg : Reg) (innerClass : DynClass)
    (origCls : Option String) : DynClass × Reg :=
  let name := "ListOf" ++ className innerClass
  match lookupA reg.dyn name with
  | some c => (c, reg)
  | none => create_ListClass reg name innerClass origCls

/-- `register_api_type_handler(**types)`: a plain
`_api_types_to_trait.update(types)` — later bindings win, existing
bindings for the same name are overwritten without any check. -/
def register_api_type_handler (reg : Reg) (types : List (String × DynClass)) :
    Reg :=
  { reg with api := types.foldl (fun a kv => insertA a kv.1 kv.2) reg.api }

/-- Class-trait tables (`__class_traits__`). -/
abbrev CT := List (String × TraitK)

/-- Instance field assignments (trait name to current value). -/
abbrev Fields := List (String × PyVal)

/-- Store a binding with Python-dict insertion-order semantics: update an
existing key in place, append a new key at the end. -/
def storeF {α : Type} : List (String × α) → String → α → List (String × α)
  | [], k, v => [(k, v)]
  | (k0, v0) :: rest, k, v =>
    if k0 == k then (k0, v) :: rest else (k0, v0) :: storeF rest k v

/-- `key.startswith('_')`. -/
def is_private_key (k : String) : Bool :=
  match k.data with
  | [] => false
  | c :: _ => c == '_'

/-- Assign a batch of trait values (`HasTraits.set` semantics as used at
the end of `set_init` and in `GenericTrait.__init__`): validate and
coerce each against the trait table; an attribute without a declared
trait is stored as-is (plain `HasTraits` allows new attributes).  `none`
is a `TraitError` on some assignment. -/
def set_all (ct : CT) (fs : Fields) : List (String × PyVal) → Option Fields
  | [] => some fs
  | (k, v) :: rest =>
    match lookupA ct k with
    | some t =>
      match coerce_assign t v with
      | some v' => set_all ct (storeF fs k v') rest
      | none => none
    | none => set_all ct (storeF fs k v) rest

/-- `('pos' + str(i), value) for i, value in enumerate(obj)`. -/
def pos_props (xs : List PyVal) : List (String × PyVal) :=
  xs.enum.map (fun p => ("pos" ++ toString p.1, p.2))

/-- Keep-first deduplication, standing in for `set()` on the element type
names in `create_list_trait` (only the count and, when unique, the single
member are ever used). -/
def dedup_acc (seen : List String) : List String → List String
  | [] => []
  | x :: rest =>
    if seen.contains x then dedup_acc seen rest
    else x :: dedup_acc (x :: seen) rest

/-- The distinct element type names of a list, in first-occurrence order. -/
def dedup_first (l : List String) : List String := dedup_acc [] l

/-- The base item trait for a base type name (`List(t, ...)` item). -/
def base_trait_name (t : String) : TraitK :=
  if t == "bool" then TraitK.tBool
  else if t == "int" then TraitK.tInt
  else if t == "str" then TraitK.tCStr
  else TraitK.tGeneric

mutual
/-- `get_or_create_trait_for(obj)`: returns the interface trait and the
materialized trait object for a value.  A value that is already a
`HasTraits` instance is returned as-is; a value whose type name has a
registered handler is instantiated through it; anything else goes through
`create_generic_trait`. -/
def get_or_create_trait_for (fuel : Nat) (reg : Reg) (v : PyVal) :
    Except Err (Reg × TraitK × PyVal) :=
  match fuel with
  | 0 => throw Err.fuelOut
  | f + 1 =>
    if is_has_traits v then pure (reg, TraitK.tInstOf (type_name v), v)
    else
      match get_obj_t reg (type_name v) with
      | some trait_t => do
        let (reg', obj) ← instantiate_class f reg trait_t v
        pure (reg', TraitK.tInstOf (className trait_t), obj)
      | none => create_generic_trait f reg v

/-- `trait_t(obj)`: instantiate a handler class with an initializer.
Calling an api-registered raw trait handler (a `TraitType` instance)
clones it without raising. -/
def instantiate_class (fuel : Nat) (reg : Reg) (c : DynClass) (v : PyVal) :
    Except Err (Reg × PyVal) :=
  match fuel with
  | 0 => throw Err.fuelOut
  | f + 1 =>
    match c with
    | DynClass.modelClass _ _ _ => model_class_init f reg c (some v)
    | DynClass.listClass _ _ _ => list_model_init f reg c (some v)
    | DynClass.listTraitH t => pure (reg, PyVal.traitObjVal t)

/-- `create_generic_trait(obj)`: list-like values go to
`create_list_trait`; objects with an attribute bag get a dynamic model
class; everything else becomes a `GenericTrait` (for values without an
`items()` bag — plain scalars — that constructor itself raises). -/
def create_generic_trait (fuel : Nat) (reg : Reg) (v : PyVal) :
    Except Err (Reg × TraitK × PyVal) :=
  match fuel with
  | 0 => throw Err.fuelOut
  | f + 1 =>
    if is_list v then create_list_trait f reg v
    else
      match vars_of v with
      | none => do
        let (reg', inst) ← generic_trait_init f reg v false
        pure (reg', TraitK.tInstOf "GenericTrait", inst)
      | some _ => do
        let (reg', newModel) ← get_or_create_ModelClass_for_obj f reg v
        let (reg'', inst) ← model_class_init f reg' newModel (some v)
        pure (reg'', TraitK.tInstOf (className newModel), inst)

/-- `create_list_trait(obj)`: one base element type yields an inline list
trait with the raw list; one model element type yields a `ListClassModel`
instance; an element type without `__dict__` or a mixed (or empty) list
yields a `GenericTrait` rendered as an object (`as_list=True`). -/
def create_list_trait (fuel : Nat) (reg : Reg) (v : PyVal) :
    Except Err (Reg × TraitK × PyVal) :=
  match fuel with
  | 0 => throw Err.fuelOut
  | f + 1 =>
    let elems := elems_of v
    match dedup_first (elems.map type_name) with
    | [t] =>
      if is_base_name t then
        pure (reg, TraitK.tListOfBase (base_trait_name t), v)
      else
        match elems with
        | [] => throw Err.attrError
        | e0 :: _ =>
          match get_obj_t reg t with
          | none =>
            if obj_has_dict e0 then do
              let (reg', model) ← get_or_create_ModelClass_for_obj f reg e0
              let (listCls, reg2) :=
                get_or_create_ClassListOf reg' model (some (type_name e0))
              let (reg3, obj) ← list_model_init f reg2 listCls (some v)
              pure (reg3, TraitK.tInstOf "ListClassModel", obj)
            else do
              let (reg', inst) ← generic_trait_init f reg v true
              pure (reg', TraitK.tInstOf "GenericTrait", inst)
          | some model => do
            let (listCls, reg2) :=
              get_or_create_ClassListOf reg model (some (type_name e0))
            let (reg3, obj) ← list_model_init f reg2 listCls (some v)
            pure (reg3, TraitK.tInstOf "ListClassModel", obj)
    | _ => do
      let (reg', inst) ← generic_trait_init f reg v true
      pure (reg', TraitK.tInstOf "GenericTrait", inst)

/-- `get_or_create_ModelClass_for_obj(obj)`: the stored dynamic model
class for the value's runtime type name, or a freshly created one. -/
def get_or_create_ModelClass_for_obj (fuel : Nat) (reg : Reg) (v : PyVal) :
    Except Err (Reg × DynClass) :=
  match fuel with
  | 0 => throw Err.fuelOut
  | f + 1 =>
    match lookupA reg.dyn (type_name v) with
    | some c => pure (reg, c)
    | none => create_ModelClass f reg (type_name v) v

/-- `_create_ModelClass(name, obj)`: build the class traits from
`vars(obj)` via `_create_get_traits` (which may recursively synthesize
and register nested classes), then store the new class under `name`.
Note the store happens after the recursive synthesis. -/
def create_ModelClass (fuel : Nat) (reg : Reg) (name : String) (v : PyVal) :
    Except Err (Reg × DynClass) :=
  match fuel with
  | 0 => throw Err.fuelOut
  | f + 1 =>
    match vars_of v with
    | none => throw Err.typeError
    | some props => do
      let (reg', ctraits, _ed) ← create_get_traits f reg props
      let c := DynClass.modelClass name ctraits []
      pure ({ reg' with dyn := insertA reg'.dyn name c }, c)

/-- `GenericTrait._create_get_traits(add_trait_f, obj_props)`: for each
non-private property, add a trait (a known handler's interface, the base
trait of a base-typed value, or a generically created interface) and
record the editable value. -/
def create_get_traits (fuel : Nat) (reg : Reg)
    (props : List (String × PyVal)) :
    Except Err (Reg × CT × List (String × PyVal)) :=
  match fuel with
  | 0 => throw Err.fuelOut
  | f + 1 =>
    match props with
    | [] => pure (reg, [], [])
    | (key, value) :: rest =>
      if is_private_key key then create_get_traits f reg rest
      else
        match get_obj_t reg (type_name value) with
        | some _ => do
          let (reg', t_inter, t_obj) ← get_or_create_trait_for f reg value
          let (reg2, ts, ed) ← create_get_traits f reg' rest
          pure (reg2, (key, t_inter) :: ts, (key, t_obj) :: ed)
        | none =>
          if is_base_val value then
            let trait_t := base_trait_of value
            let ev :=
              match value with
              | PyVal.vNone => default_of trait_t
              | _ => value
            do
              let (reg', ts, ed) ← create_get_traits f reg rest
              pure (reg', (key, trait_t) :: ts, (key, ev) :: ed)
          else do
            let (reg', t_inter, t_obj) ← get_or_create_trait_for f reg value
            let (reg2, ts, ed) ← create_get_traits f reg' rest
            pure (reg2, (key, t_inter) :: ts, (key, t_obj) :: ed)

/-- `GenericTrait.__init__(obj, as_list)`: derive the property bag (from
positional enumeration, `vars`, or a dictionary), create traits for it,
and assign the editable values. -/
def generic_trait_init (fuel : Nat) (reg : Reg) (obj : PyVal)
    (asList : Bool) : Except Err (Reg × PyVal) :=
  match fuel with
  | 0 => throw Err.fuelOut
  | f + 1 =>
    let propsOrig : Except Err (List (String × PyVal) × Option PyVal × Bool) :=
      if asList then pure (pos_props (elems_of obj), none, false)
      else
        match obj with
        | PyVal.vObj _ attrs => pure (attrs, some obj, false)
        | PyVal.vDict kvs => pure (kvs, none, true)
        | _ => throw Err.attrError
    do
      let (props, orig, isDict) ← propsOrig
      let (reg', tr, ed) ← create_get_traits f reg props
      match set_all tr [] ed with
      | some flds =>
        pure (reg', PyVal.genericTraitInst orig asList isDict flds)
      | none => throw Err.traitError

/-- `ClassModel.__init__(obj)`: with no initializer the instance starts
empty; the `if obj is not None` guard makes a `None` initializer yield
the empty instance too; with an object, `set_init(vars(obj))` runs and
`__orig_obj` is kept; with a dictionary, `set_init(obj)` runs without a
back-reference; anything else raises when iterated. -/
def model_class_init (fuel : Nat) (reg : Reg) (c : DynClass)
    (obj : Option PyVal) : Except Err (Reg × PyVal) :=
  match fuel with
  | 0 => throw Err.fuelOut
  | f + 1 =>
    match c with
    | DynClass.modelClass name ctraits _tmpl =>
      match obj with
      | none => pure (reg, PyVal.classModelInst name none ctraits [])
      | some o =>
        match vars_of o with
        | some attrs => do
          let (reg', ct', flds) ← set_init f reg ctraits attrs
          pure (reg', PyVal.classModelInst name (some o) ct' flds)
        | none =>
          match o with
          | PyVal.vNone => pure (reg, PyVal.classModelInst name none ctraits [])
          | PyVal.vDict kvs => do
            let (reg', ct', flds) ← set_init f reg ctraits kvs
            pure (reg', PyVal.classModelInst name none ct' flds)
          | _ => throw Err.attrError
    | _ => throw Err.typeError

/-- `ClassModel.set_init(traits)`: walk the initializer items collecting
`mod_traits` (see `set_init_go`), then perform the bulk assignment
`self.set(False, **mod_traits)`. -/
def set_init (fuel : Nat) (reg : Reg) (ct : CT)
    (traits : List (String × PyVal)) : Except Err (Reg × CT × Fields) :=
  match fuel with
  | 0 => throw Err.fuelOut
  | f + 1 => do
    let (reg', ct', mods) ← set_init_go f reg ct traits
    match set_all ct' [] mods with
    | some flds => pure (reg', ct', flds)
    | none => throw Err.traitError

/-- The iteration of `set_init`: private keys, the `Templates` key and
`None` values are skipped; a non-base non-list value is first converted
through `get_or_create_trait_for` (skipping the field if the registered
handler is a raw `List` trait, or when conversion raises — the broad
`except Exception`), upgrading a declared `Generic` class trait in place;
then the (possibly converted) value is validated (`set_init_field`). -/
def set_init_go (fuel : Nat) (reg : Reg) (ct : CT) :
    List (String × PyVal) →
    Except Err (Reg × CT × List (String × PyVal))
  | [] =>
    match fuel with
    | 0 => throw Err.fuelOut
    | _ + 1 => pure (reg, ct, [])
  | (key, val) :: rest =>
    match fuel with
    | 0 => throw Err.fuelOut
    | f + 1 =>
      if is_private_key key || key == "Templates" then
        set_init_go f reg ct rest
      else
        match val with
        | PyVal.vNone => set_init_go f reg ct rest
        | _ =>
          if !is_base_val val && !is_list val then
            match get_obj_t reg (type_name val) with
            | some (DynClass.listTraitH _) => set_init_go f reg ct rest
            | _ =>
              match get_or_create_trait_for f reg val with
              | Except.error _ => set_init_go f reg ct rest
              | Except.ok (reg', iface, val') =>
                let ct' :=
                  match lookupA ct key with
                  | some TraitK.tGeneric => storeF ct key iface
                  | _ => ct
                set_init_field f reg' ct' key val' rest
          else set_init_field f reg ct key val rest

/-- The validation tail of one `set_init` iteration: a value that
validates is collected; otherwise a non-empty list is converted through
the dynamically created list class for its first element's type (raising
a `TypeError` when none was ever created — `None(val)`), an empty list is
skipped, and any other mismatch is logged and dropped. -/
def set_init_field (fuel : Nat) (reg : Reg) (ct : CT) (key : String)
    (val : PyVal) (rest : List (String × PyVal)) :
    Except Err (Reg × CT × List (String × PyVal)) :=
  match fuel with
  | 0 => throw Err.fuelOut
  | f + 1 =>
    match lookupA ct key with
    | some tk =>
      if validate_trait tk val then do
        let (r, c, ms) ← set_init_go f reg ct rest
        pure (r, c, (key, val) :: ms)
      else
        if is_list val then
          if (elems_of val).length != 0 then
            let subt := type_name ((elems_of val).headD PyVal.vNone)
            match getClassListOf reg subt with
            | none => throw Err.typeError
            | some tlistc => do
              let (reg', obj) ← list_model_init f reg tlistc (some val)
              let (r, c, ms) ← set_init_go f reg' ct rest
              pure (r, c, (key, obj) :: ms)
          else set_init_go f reg ct rest
        else set_init_go f reg ct rest
    | none => do
      let (r, c, ms) ← set_init_go f reg ct rest
      pure (r, c, (key, val) :: ms)

/-- `ListClassModel.__init__(obj, trait_t, orig_class)`: a missing inner
type raises; a list initializer is appended element-wise, conforming
elements directly and others after conversion through the inner class
(`list_init_elems`); a non-list initializer is ignored. -/
def list_model_init (fuel : Nat) (reg : Reg) (c : DynClass)
    (obj : Option PyVal) : Except Err (Reg × PyVal) :=
  match fuel with
  | 0 => throw Err.fuelOut
  | f + 1 =>
    match c with
    | DynClass.listClass name innerT origCls =>
      match innerT with
      | InnerT.innerNone => throw Err.traitError
      | it =>
        match obj with
        | none => pure (reg, PyVal.listModelInst name it origCls [])
        | some o =>
          if is_list o then do
            let (reg', mat) ← list_init_elems f reg it (elems_of o)
            pure (reg', PyVal.listModelInst name it origCls mat)
          else pure (reg, PyVal.listModelInst name it origCls [])
    | _ => throw Err.typeError

/-- The element loop of `ListClassModel.__init__`: `Any` or a conforming
element is appended as-is; otherwise `trait_t(elem)` is appended, the
trait list validating the appended value against the element trait. -/
def list_init_elems (fuel : Nat) (reg : Reg) (it : InnerT) :
    List PyVal → Except Err (Reg × List PyVal)
  | [] =>
    match fuel with
    | 0 => throw Err.fuelOut
    | _ + 1 => pure (reg, [])
  | e :: rest =>
    match fuel with
    | 0 => throw Err.fuelOut
    | f + 1 =>
      match it with
      | InnerT.innerNone => throw Err.traitError
      | InnerT.innerAny => do
        let (r, ms) ← list_init_elems f reg it rest
        pure (r, e :: ms)
      | InnerT.innerModel mc =>
        if validates_inst (className mc) e then do
          let (r, ms) ← list_init_elems f reg it rest
          pure (r, e :: ms)
        else do
          let (reg', e') ← instantiate_class f reg mc e
          if validates_inst (className mc) e' then do
            let (r, ms) ← list_init_elems f reg' it rest
            pure (r, e' :: ms)
          else throw Err.traitError
end

/-- `get_or_create_editor_for_obj(obj)`: a value that is already a
`HasTraits` instance is returned unchanged; otherwise the trait object
from `get_or_create_trait_for` is returned. -/
def get_or_create_editor_for_obj (fuel : Nat) (reg : Reg) (v : PyVal) :
    Except Err (Reg × PyVal) :=
  if is_has_traits v then pure (reg, v)
  else do
    let (reg', _t_inter, t_obj) ← get_or_create_trait_for fuel reg v
    pure (reg', t_obj)

/-- `isinstance(x, ClassModel)` — `ListClassModel` subclasses
`ClassModel`, `GenericTrait` does not. -/
def is_class_model_like : PyVal → Bool
  | classModelInst _ _ _ _ => true
  | listModelInst _ _ _ _ => true
  | _ => false

/-- Code-point comparison of character lists (Python string `<`). -/
def char_list_lt : List Char → List Char → Bool
  | [], [] => false
  | [], _ :: _ => true
  | _ :: _, [] => false
  | a :: as, b :: bs =>
    if a.val < b.val then true
    else if b.val < a.val then false
    else char_list_lt as bs

/-- Python string `<` (lexicographic on code points). -/
def str_lt (s t : String) : Bool := char_list_lt s.data t.data

/-- Insert into an ascending list (stable). -/
def insert_sorted (s : String) : List String → List String
  | [] => [s]
  | t :: rest =>
    if str_lt t s then t :: insert_sorted s rest else s :: t :: rest

/-- `sorted(keys)`: ascending lexicographic sort of strings. -/
def sort_keys : List String → List String
  | [] => []
  | s :: rest => insert_sorted s (sort_keys rest)

/-- `__dict__.update(elems)`: existing attributes are overwritten in
place, new keys are appended. -/
def update_attrs (attrs upd : List (String × PyVal)) :
    List (String × PyVal) :=
  attrs.map (fun kv => (kv.1, (lookupA upd kv.1).getD kv.2)) ++
    upd.filter (fun kv => (lookupA attrs kv.1).isNone)

mutual
/-- `GenericTrait.cast_back(obj, cast_to)`: base values pass through,
trait list objects become plain lists, other values are converted through
their own `get_object`; with a `cast_to` class a fresh no-argument
instance is created and its attribute bag updated from the dictionary
form. -/
def cast_back (fuel : Nat) (v : PyVal) (castTo : Option String) :
    Except Err PyVal :=
  match fuel with
  | 0 => throw Err.fuelOut
  | f + 1 =>
    if is_base_val v then pure v
    else
      match v with
      | PyVal.vList xs => pure (PyVal.vList xs)
      | _ =>
        match castTo with
        | none => get_object f v false
        | some cls => do
          let d ← get_object f v true
          match d with
          | PyVal.vDict kvs => pure (PyVal.vObj cls kvs)
          | _ => throw Err.typeError

/-- The `get_object` methods.  `ClassModel.get_object`: take the
non-private trait values (`get_conv`), converting `ClassModel`-typed ones
recursively (note: only `ClassModel` ones — `conv_pairs`), then either
return the dictionary or update and return `__orig_obj` (returning `self`
when there is none).  `ListClassModel.get_object`: cast every matrix
element back through `_orig_class`.  `GenericTrait.get_object`: cast all
field values back; a list-shaped instance is rebuilt by reading the
values at its `sorted()` field names; a dict-shaped one returns the
mapping; otherwise `__orig_obj` is updated and returned.  Calling it on
anything else is an `AttributeError`. -/
def get_object (fuel : Nat) (v : PyVal) (asDict : Bool) :
    Except Err PyVal :=
  match fuel with
  | 0 => throw Err.fuelOut
  | f + 1 =>
    match v with
    | PyVal.classModelInst _ orig ct flds => do
      let elems :=
        ct.map (fun kt => (kt.1, (lookupA flds kt.1).getD (default_of kt.2)))
      let elems' ← conv_pairs f elems
      if asDict then pure (PyVal.vDict elems')
      else
        match orig with
        | some (PyVal.vObj c attrs) =>
          pure (PyVal.vObj c (update_attrs attrs elems'))
        | _ => pure v
    | PyVal.listModelInst _ _ origCls matrix => do
      let xs ← cast_list f matrix origCls
      pure (PyVal.vList xs)
    | PyVal.genericTraitInst orig asL asD flds => do
      let elems' ← cast_pairs f flds
      if asL then
        let keys := sort_keys (elems'.map Prod.fst)
        pure (PyVal.vList
          (keys.map (fun k => (lookupA elems' k).getD PyVal.vNone)))
      else if asDict || asD then pure (PyVal.vDict elems')
      else
        match orig with
        | some (PyVal.vObj c attrs) =>
          pure (PyVal.vObj c (update_attrs attrs elems'))
        | _ => throw Err.attrError
    | _ => throw Err.attrError

/-- `ClassModel.get_conv`'s `_map_dic_values` pass: only values that are
`isinstance(x, ClassModel)` are converted via `x.get_object()`. -/
def conv_pairs (fuel : Nat) :
    List (String × PyVal) → Except Err (List (String × PyVal))
  | [] =>
    match fuel with
    | 0 => throw Err.fuelOut
    | _ + 1 => pure []
  | (k, x) :: rest =>
    match fuel with
    | 0 => throw Err.fuelOut
    | f + 1 => do
      let x' ← if is_class_model_like x then get_object f x false else pure x
      let r ← conv_pairs f rest
      pure ((k, x') :: r)

/-- `GenericTrait.get_object`'s per-field `cast_back(value)`. -/
def cast_pairs (fuel : Nat) :
    List (String × PyVal) → Except Err (List (String × PyVal))
  | [] =>
    match fuel with
    | 0 => throw Err.fuelOut
    | _ + 1 => pure []
  | (k, x) :: rest =>
    match fuel with
    | 0 => throw Err.fuelOut
    | f + 1 => do
      let x' ← cast_back f x none
      let r ← cast_pairs f rest
      pure ((k, x') :: r)

/-- `ListClassModel.get_object`'s element conversion:
`cast_back(elem, self._orig_class)` for each matrix element. -/
def cast_list (fuel : Nat) (xs : List PyVal) (origCls : Option String) :
    Except Err (List PyVal) :=
  match fuel with
  | 0 => throw Err.fuelOut
  | f + 1 =>
    match xs with
    | [] => pure []
    | x :: rest => do
      let x' ← cast_back f x origCls
      let r ← cast_list f rest origCls
      pure (x' :: r)
end

/-- `toPlainOrNative(buildEditable(v))` with no intervening edits: build
the editable instance for a value and convert it straight back. -/
def round_trip (fuel : Nat) (reg : Reg) (v : PyVal) : Except Err PyVal := do
  let (_reg', ed) ← get_or_create_editor_for_obj fuel reg v
  get_object fuel ed false

/-- Validation performed by the `_matrix` trait list on inserted
elements: the element trait `t_edit` is `Any` when the inner type is
`Any`, else `Instance(inner class, ())` — which accepts instances of the
inner class and, by the traits library's `allow_none=True` default for
`Instance`, also `None`. -/
def t_edit_accepts (it : InnerT) (v : PyVal) : Bool :=
  match it with
  | InnerT.innerAny => true
  | InnerT.innerModel mc =>
    match v with
    | PyVal.vNone => true
    | _ => validates_inst (className mc) v
  | InnerT.innerNone => false

/-- `ListClassModel.append(obj)`: `self._matrix.append(obj)` — the trait
list validates the value against the element trait and raises a
`TraitError` on mismatch; no conversion is attempted here. -/
def lcm_append (l : PyVal) (v : PyVal) : Except Err PyVal :=
  match l with
  | PyVal.listModelInst name it orig mat =>
    if t_edit_accepts it v then
      pure (PyVal.listModelInst name it orig (mat ++ [v]))
    else throw Err.traitError
  | _ => throw Err.typeError

/-- `ListClassModel.__add__(other)`: `self._matrix += other` (the trait
list validates the operand's elements, then extends in place); the
method body has no `return`, so the call evaluates to `None`. -/
def lcm_add (l : PyVal) (other : List PyVal) :
    Except Err (PyVal × PyVal) :=
  match l with
  | PyVal.listModelInst name it orig mat =>
    if other.all (fun x => t_edit_accepts it x) then
      pure (PyVal.listModelInst name it orig (mat ++ other), PyVal.vNone)
    else throw Err.traitError
  | _ => throw Err.typeError

/-- `HasTraits.set(**m)` as used by `_Templates_changed`: assign the
items in order, each validated and coerced by its trait; the first
failing assignment raises, leaving the earlier assignments in place
(second component reports the escaped exception). -/
def trait_set_list (ct : CT) (fs : Fields) :
    List (String × PyVal) → Fields × Option Err
  | [] => (fs, none)
  | (k, v) :: rest =>
    match lookupA ct k with
    | some t =>
      match coerce_assign t v with
      | some v' => trait_set_list ct (storeF fs k v') rest
      | none => (fs, some Err.traitError)
    | none => trait_set_list ct (storeF fs k v) rest

/-- `ClassModel._Templates_changed(old, new)`:
`self._templates[new]` is looked up first; a hit is bulk-assigned with
`self.set(**mapping)`, a `KeyError` (unknown name, including the `""`
no-selection sentinel) resets every trait to its default
(`reset_traits`, modelled by the empty field store). -/
def templates_changed (c : DynClass) (fs : Fields) (newName : String) :
    Fields × Option Err :=
  match c with
  | DynClass.modelClass _ ctraits tmpl =>
    match lookupA tmpl newName with
    | some m => trait_set_list ctraits fs m
    | none => ([], none)
  | _ => (fs, some Err.typeError)

/-- The visible value of a field of a `ClassModel` instance: the assigned
value, or the declared trait's default when unassigned. -/
def get_field (c : DynClass) (fs : Fields) (k : String) : PyVal :=
  match c with
  | DynClass.modelClass _ ctraits _ =>
    (lookupA fs k).getD (((lookupA ctraits k).map default_of).getD PyVal.vNone)
  | _ => PyVal.vNone

/-- The attribute bag entry of a plain object (observation helper). -/
def attr_of (v : PyVal) (k : String) : Option PyVal :=
  match v with
  | PyVal.vObj _ attrs => lookupA attrs k
  | _ => none

/-- Constructor observation: is the value a Python `dict`? -/
def is_vdict : PyVal → Bool
  | PyVal.vDict _ => true
  | _ => false

/-- Observation: the integer carried by an `int` value. -/
def int_val_opt : PyVal → Option Int
  | PyVal.vInt n => some n
  | _ => none

/-- The class-trait table of a schema (observation helper). -/
def ctraits_of : DynClass → CT
  | DynClass.modelClass _ ct _ => ct
  | _ => []

/-- The declared templates of a schema (observation helper). -/
def templates_of : DynClass → List (String × List (String × PyVal))
  | DynClass.modelClass _ _ t => t
  | _ => []

/-- Is a value one of the objects synthesis can hand back for a non-list
input: a `HasTraits` instance or a cloned raw trait handler? -/
def is_modelish : PyVal → Bool
  | PyVal.classModelInst _ _ _ _ => true
  | PyVal.genericTraitInst _ _ _ _ => true
  | PyVal.listModelInst _ _ _ _ => true
  | PyVal.traitObjVal _ => true
  | _ => false

/-- Can `HasTraits.set` assign value `v` to trait `k` of table `ct`
without raising (an undeclared name is always assignable)? -/
def can_assign (ct : CT) (k : String) (v : PyVal) : Bool :=
  match lookupA ct k with
  | some t => (coerce_assign t v).isSome
  | none => true

/-- The value `HasTraits.set` actually stores for trait `k`. -/
def assigned_value (ct : CT) (k : String) (v : PyVal) : PyVal :=
  match lookupA ct k with
  | some t => (coerce_assign t v).getD v
  | none => v

/-- C1: a value of type name `Node` nested inside another value of the
same type name. -/
def innerNode : PyVal := PyVal.vObj "Node" [("v", PyVal.vInt 1)]

/-- C1: the outer self-nested `Node` value. -/
def outerNode : PyVal := PyVal.vObj "Node" [("next", innerNode)]

/-- C1: the schema registered for `Node` by the inner synthesis. -/
def nodeSchema1 : DynClass :=
  DynClass.modelClass "Node" [("v", TraitK.tInt)] []

/-- C1: the schema the outer creation overwrites the entry with. -/
def nodeSchema2 : DynClass :=
  DynClass.modelClass "Node" [("next", TraitK.tInstOf "Node")] []

/-- C2: a struct-like value with a mapping-valued attribute. -/
def c2Input : PyVal := PyVal.vObj "A" [("d", PyVal.vDict [("a", PyVal.vInt 1)])]

/-- C2: what the round trip actually returns for `c2Input`: the original
object with its `d` attribute replaced by the `GenericTrait` holder. -/
def c2Output : PyVal :=
  PyVal.vObj "A"
    [("d", PyVal.genericTraitInst none false true [("a", PyVal.vInt 1)])]

/-- C3: a heterogeneous list of 11 elements (two runtime types). -/
def hetList11 : PyVal :=
  PyVal.vList [PyVal.vInt 0, PyVal.vStr "s", PyVal.vInt 2, PyVal.vInt 3,
    PyVal.vInt 4, PyVal.vInt 5, PyVal.vInt 6, PyVal.vInt 7, PyVal.vInt 8,
    PyVal.vInt 9, PyVal.vInt 10]

/-- C3: the pseudo-struct instance synthesized for `hetList11` — fields
`pos0`..`pos10` in original sequence order. -/
def hetList11Editor : PyVal :=
  PyVal.genericTraitInst none true false
    [("pos0", PyVal.vInt 0), ("pos1", PyVal.vStr "s"), ("pos2", PyVal.vInt 2),
     ("pos3", PyVal.vInt 3), ("pos4", PyVal.vInt 4), ("pos5", PyVal.vInt 5),
     ("pos6", PyVal.vInt 6), ("pos7", PyVal.vInt 7), ("pos8", PyVal.vInt 8),
     ("pos9", PyVal.vInt 9), ("pos10", PyVal.vInt 10)]

/-- C3: the sequence the round trip actually returns for `hetList11`:
`sorted()` on the field names puts `pos10` before `pos2`. -/
def hetList11Output : PyVal :=
  PyVal.vList [PyVal.vInt 0, PyVal.vStr "s", PyVal.vInt 10, PyVal.vInt 2,
    PyVal.vInt 3, PyVal.vInt 4, PyVal.vInt 5, PyVal.vInt 6, PyVal.vInt 7,
    PyVal.vInt 8, PyVal.vInt 9]

/-- C4/C6: a hand-authored model schema with an `Int` field `a` and a
`CStr` field `b`, one template with a non-integer value for `a` and one
well-typed template. -/
def c4Schema : DynClass :=
  DynClass.modelClass "U" [("a", TraitK.tInt), ("b", TraitK.tCStr)]
    [("t1", [("a", PyVal.vStr "x")]), ("good", [("a", PyVal.vInt 7)])]

/-- C6: a model schema for the list element type `M`. -/
def mSchema : DynClass := DynClass.modelClass "M" [("a", TraitK.tInt)] []

/-- C6: the dynamic list class of `M`. -/
def listOfMSchema : DynClass :=
  DynClass.listClass "ListOfM" (InnerT.innerModel mSchema) (some "M")

/-- C6: an initially empty instance of `ListOfM`. -/
def emptyListOfM : PyVal :=
  PyVal.listModelInst "ListOfM" (InnerT.innerModel mSchema) (some "M") []

/-- C6: a plain object of type name `M` — not an instance of the model
class, but coercible by constructing the model from it. -/
def mLikeObj : PyVal := PyVal.vObj "M" [("a", PyVal.vInt 1)]

/-- C8: a hand-authored schema registered under `T`. -/
def tSchemaA : DynClass := DynClass.modelClass "T" [("a", TraitK.tInt)] []

/-- C8: a different schema for the same name `T`. -/
def tSchemaB : DynClass := DynClass.modelClass "T" [("b", TraitK.tCStr)] []

/-- C7: a class-trait table declaring three `Int` fields, the middle one
(`bad`) about to receive a value that fits neither `Int` nor the
sequence-like reroute. -/
def c7Traits : CT :=
  [("f1", TraitK.tInt), ("bad", TraitK.tInt), ("f2", TraitK.tInt)]

/-- C4 witness data: the declared traits of the example model. -/
def c4wTraits : CT := [("name", TraitK.tCStr), ("number", TraitK.tInt)]

/-- C4 witness data: one well-typed declared template. -/
def c4wTemplates : List (String × List (String × PyVal)) :=
  [("user1", [("name", PyVal.vStr "F1"), ("number", PyVal.vInt 1)])]

/-- C4 witness data: the instance's current field values. -/
def c4wFields : Fields :=
  [("name", PyVal.vStr "orig"), ("number", PyVal.vInt 9)]

/-- C2 (code bug): building the editable instance for a struct-like value
with a mapping-valued attribute and converting it back with no edits does
not return an attribute-equal value: `ClassModel.get_conv` converts only
`ClassModel`-typed field values, so the `GenericTrait` holder synthesized
for the `dict` attribute is written back onto the original object in
place of the mapping — the returned attribute `d` is the holder instance,
not a `dict`, while the input's `d` was one. -/
theorem C2_roundtrip_leaves_generic_holder_in_place :
    round_trip 40 emptyReg c2Input = Except.ok c2Output ∧
    attr_of c2Input "d" = some (PyVal.vDict [("a", PyVal.vInt 1)]) ∧
    (attr_of c2Output "d").map is_vdict = some false :=
  ⟨rfl, rfl, rfl⟩

/-- C3 (code bug): the pseudo-struct synthesized for a heterogeneous list
of 11 elements has fields `pos0`..`pos10` in original sequence order
(first conjunct), but the round trip reads them back in `sorted()` string
order, which places `pos10` before `pos2`: the element returned at
position 2 is the original element 10, not the original element 2 —
original order is not reproduced. -/
theorem C3_roundtrip_sorts_positional_names_as_strings :
    (get_or_create_editor_for_obj 60 emptyReg hetList11).map Prod.snd
      = Except.ok hetList11Editor ∧
    round_trip 60 emptyReg hetList11 = Except.ok hetList11Output ∧
    ((elems_of hetList11Output).get? 2).bind int_val_opt = some 10 ∧
    ((elems_of hetList11).get? 2).bind int_val_opt = some 2 :=
  ⟨rfl, rfl, rfl, rfl⟩

/-- C1 counterexample: synthesizing a value whose attribute tree nests
another value of the same runtime type name changes the registry entry
for that name mid-run.  `_create_ModelClass` recursively synthesizes the
attribute traits first (`create_get_traits`, which registers the inner
`Node` schema) and only then stores its own class under the same name,
overwriting the entry: after the recursive step the registry maps `Node`
to the inner schema, after the full call it maps `Node` to a different
schema — refuting "the registry entry for a name never changes". -/
theorem C1_counterexample_self_nested_name_overwrites_entry :
    (create_get_traits 38 emptyReg [("next", innerNode)]).map
        (fun r => lookupA r.1.dyn "Node") = Except.ok (some nodeSchema1) ∧
    (get_or_create_ModelClass_for_obj 40 emptyReg outerNode).map
        (fun r => lookupA r.1.dyn "Node") = Except.ok (some nodeSchema2) ∧
    (get_or_create_ModelClass_for_obj 40 emptyReg outerNode).map Prod.snd
      = Except.ok nodeSchema2 ∧
    nodeSchema1 ≠ nodeSchema2 :=
  ⟨rfl, rfl, rfl, fun h => absurd (congrArg ctraits_of h) (by decide)⟩

/-- C5 counterexample: list synthesis of an empty list with no element
hint does not raise — it completes, producing an empty `GenericTrait`
pseudo-struct (the `t_count != 1` branch of `create_list_trait`),
refuting "synthesis fails exactly when the input to list synthesis is a
list with zero elements and no static element-type hint". -/
theorem C5_counterexample_empty_list_synthesis_succeeds :
    create_list_trait 40 emptyReg (PyVal.vList [])
      = Except.ok (emptyReg, TraitK.tInstOf "GenericTrait",
          PyVal.genericTraitInst none true false []) :=
  rfl

/-- C5 amended: the inner-type error is raised by `ListClassModel`
construction without an element-type hint (empty or not); a struct
attribute holding a heterogeneous list raises a `TypeError` when no list
class was ever created for its first element's type (`None(val)` in
`set_init`); a non-empty homogeneous base-typed list completes with an
inline list trait. -/
theorem C5_amended_failure_modes :
    list_model_init 40 emptyReg
        (DynClass.listClass "ListClassModel" InnerT.innerNone none)
        (some (PyVal.vList [])) = Except.error Err.traitError ∧
    list_model_init 40 emptyReg
        (DynClass.listClass "ListClassModel" InnerT.innerNone none)
        (some (PyVal.vList [PyVal.vInt 1])) = Except.error Err.traitError ∧
    set_init 40 emptyReg [("xs", TraitK.tInstOf "GenericTrait")]
        [("xs", PyVal.vList [PyVal.vInt 1, PyVal.vStr "a"])]
      = Except.error Err.typeError ∧
    create_list_trait 40 emptyReg
        (PyVal.vList [PyVal.vInt 1, PyVal.vInt 2])
      = Except.ok (emptyReg, TraitK.tListOfBase TraitK.tInt,
          PyVal.vList [PyVal.vInt 1, PyVal.vInt 2]) :=
  ⟨rfl, rfl, rfl, rfl⟩

/-- C6 counterexample: appending a value that does not match the element
kind but is coercible (constructing the element schema from it succeeds)
is rejected by `ListClassModel.append` with a `TraitError` without any
coercion attempt — `append` is a bare `self._matrix.append(obj)`. -/
theorem C6_counterexample_append_rejects_without_coercion :
    lcm_append emptyListOfM mLikeObj = Except.error Err.traitError ∧
    (instantiate_class 40 emptyReg mSchema mLikeObj).map Prod.snd
      = Except.ok (PyVal.classModelInst "M" (some mLikeObj)
          [("a", TraitK.tInt)] [("a", PyVal.vInt 1)]) :=
  ⟨rfl, rfl⟩

/-- C6 amended: coercion-by-construction happens only for initializer
elements during `ListClassModel.__init__` (third conjunct: the
non-conforming initializer element is appended as a constructed model
instance); an element appended after synthesis is validated directly by
the `_matrix` trait list — `Instance(inner, ())`, which accepts inner
instances and, by its `allow_none` default, `None` — and a value failing
that validation is rejected with a `TraitError` with no coercion attempt,
leaving the items unchanged (first conjunct: the call returns no new list
value at all), while an appended `None` is accepted silently, so strict
homogeneity is preserved only up to `None` (second conjunct). -/
theorem C6_amended_coercion_only_at_init (name : String) (it : InnerT)
    (mc : DynClass) (orig : Option String) (mat : List PyVal) (v : PyVal)
    (h : t_edit_accepts it v = false) :
    lcm_append (PyVal.listModelInst name it orig mat) v
        = Except.error Err.traitError ∧
    lcm_append (PyVal.listModelInst name (InnerT.innerModel mc) orig mat)
        PyVal.vNone
      = Except.ok (PyVal.listModelInst name (InnerT.innerModel mc) orig
          (mat ++ [PyVal.vNone])) ∧
    (list_model_init 40 emptyReg listOfMSchema
        (some (PyVal.vList [mLikeObj]))).map Prod.snd
      = Except.ok (PyVal.listModelInst "ListOfM" (InnerT.innerModel mSchema)
          (some "M")
          [PyVal.classModelInst "M" (some mLikeObj) [("a", TraitK.tInt)]
            [("a", PyVal.vInt 1)]]) := by
  refine ⟨?_, rfl, rfl⟩
  simp [lcm_append, h]
  rfl

/-- Witness for C6: a concrete non-conforming append is rejected, and a
`None` append on the same list is accepted. -/
theorem C6_amended_coercion_only_at_init_witness :
    t_edit_accepts (InnerT.innerModel mSchema) (PyVal.vInt 5) = false ∧
    lcm_append (PyVal.listModelInst "ListOfM" (InnerT.innerModel mSchema)
        (some "M") []) (PyVal.vInt 5) = Except.error Err.traitError ∧
    lcm_append (PyVal.listModelInst "ListOfM" (InnerT.innerModel mSchema)
        (some "M") []) PyVal.vNone
      = Except.ok (PyVal.listModelInst "ListOfM" (InnerT.innerModel mSchema)
          (some "M") [PyVal.vNone]) :=
  ⟨rfl,
    (C6_amended_coercion_only_at_init "ListOfM" (InnerT.innerModel mSchema)
      mSchema (some "M") [] (PyVal.vInt 5) rfl).1,
    (C6_amended_coercion_only_at_init "ListOfM" (InnerT.innerModel mSchema)
      mSchema (some "M") [] (PyVal.vInt 5) rfl).2.1⟩

/-- C4 counterexample: selecting the declared template `t1`, whose
mapping holds a value that fails the field's validation, assigns nothing
and lets the `TraitError` escape: the field `a` keeps its old value
instead of receiving the template value — "every field in that template's
mapping is assigned" fails. -/
theorem C4_counterexample_template_with_invalid_value :
    lookupA (templates_of c4Schema) "t1" = some [("a", PyVal.vStr "x")] ∧
    templates_changed c4Schema [("a", PyVal.vInt 5)] "t1"
      = ([("a", PyVal.vInt 5)], some Err.traitError) ∧
    get_field c4Schema [("a", PyVal.vInt 5)] "a" = PyVal.vInt 5 :=
  ⟨rfl, rfl, rfl⟩

/-- C8 counterexample: registering a different schema under an
already-registered name succeeds silently and overwrites the entry — no
duplicate-registration error exists (`register_api_type_handler` is a
plain `dict.update`). -/
theorem C8_counterexample_silent_overwrite :
    get_obj_t (register_api_type_handler (Reg.mk [("T", tSchemaA)] [])
        [("T", tSchemaB)]) "T" = some tSchemaB ∧
    tSchemaA ≠ tSchemaB :=
  ⟨rfl, fun h => absurd (congrArg ctraits_of h) (by decide)⟩

/-- C9: the editor-creation entry point is idempotent on materialized
model instances: any `HasTraits` value (ClassModel, ListClassModel or
GenericTrait instance) is returned unchanged, with the registry
untouched, and no synthesis happens (no fuel is even consumed). -/
theorem C9_editor_returns_model_instances_unchanged (fuel : Nat)
    (reg : Reg) (v : PyVal) (h : is_has_traits v = true) :
    get_or_create_editor_for_obj fuel reg v = Except.ok (reg, v) := by
  simp [get_or_create_editor_for_obj, h]
  rfl

/-- Witness for C9 at a concrete `GenericTrait` instance with zero fuel. -/
theorem C9_editor_returns_model_instances_unchanged_witness :
    is_has_traits (PyVal.genericTraitInst none false false []) = true ∧
    get_or_create_editor_for_obj 0 emptyReg
        (PyVal.genericTraitInst none false false [])
      = Except.ok (emptyReg, PyVal.genericTraitInst none false false []) :=
  ⟨rfl, C9_editor_returns_model_instances_unchanged 0 emptyReg
    (PyVal.genericTraitInst none false false []) rfl⟩

/-- C10: `ListClassModel.__add__` extends the instance's internal
`_matrix` with the operand's elements in place and, having no `return`
statement, evaluates to `None` — concatenation never yields a new list
value at the public interface. -/
theorem C10_add_mutates_and_returns_none (name : String) (it : InnerT)
    (orig : Option String) (mat other : List PyVal)
    (h : other.all (fun x => t_edit_accepts it x) = true) :
    lcm_add (PyVal.listModelInst name it orig mat) other
      = Except.ok
          (PyVal.listModelInst name it orig (mat ++ other), PyVal.vNone) := by
  simp [lcm_add, h]
  rfl

/-- Witness for C10: a concrete concatenation on an `Any`-typed list. -/
theorem C10_add_mutates_and_returns_none_witness :
    [PyVal.vInt 2].all (fun x => t_edit_accepts InnerT.innerAny x) = true ∧
    lcm_add (PyVal.listModelInst "L" InnerT.innerAny none [PyVal.vInt 1])
        [PyVal.vInt 2]
      = Except.ok (PyVal.listModelInst "L" InnerT.innerAny none
          [PyVal.vInt 1, PyVal.vInt 2], PyVal.vNone) :=
  ⟨rfl, C10_add_mutates_and_returns_none "L" InnerT.innerAny none
    [PyVal.vInt 1] [PyVal.vInt 2] rfl⟩

/-- Looking up the key just stored yields the stored value. -/
theorem lookupA_storeF_self {α : Type} (fs : List (String × α)) (k : String)
    (v : α) : lookupA (storeF fs k v) k = some v := by
  induction fs with
  | nil => simp [storeF, lookupA]
  | cons a rest ih =>
    obtain ⟨a1, a2⟩ := a
    by_cases h : (a1 == k) = true
    · simp [storeF, lookupA, h]
    · simp only [storeF, h, if_false]
      simp only [lookupA, h, if_false]
      exact ih

/-- Storing one key leaves every other key's lookup unchanged. -/
theorem lookupA_storeF_ne {α : Type} (fs : List (String × α)) (k k' : String)
    (v : α) (h : (k' == k) = false) :
    lookupA (storeF fs k v) k' = lookupA fs k' := by
  have hne : k' ≠ k := by simpa using h
  induction fs with
  | nil =>
    simp only [storeF, lookupA]
    have : (k == k') = false := by
      simp
      exact fun e => hne e.symm
    simp [this]
  | cons a rest ih =>
    obtain ⟨a1, a2⟩ := a
    by_cases ha : (a1 == k) = true
    · have hak : a1 = k := by simpa using ha
      subst hak
      have : (a1 == k') = false := by
        simp
        exact fun e => hne e.symm
      simp [storeF, lookupA, this]
    · simp only [storeF, ha, if_false]
      simp only [lookupA]
      by_cases hb : (a1 == k') = true
      · simp [hb]
      · simp only [hb, if_false]
        exact ih

/-- When every item of the mapping can be assigned, the bulk set performs
all the stores in order and raises nothing. -/
theorem trait_set_list_all_ok (ct : CT) (m : List (String × PyVal)) :
    ∀ fs, m.all (fun kv => can_assign ct kv.1 kv.2) = true →
    trait_set_list ct fs m
      = (m.foldl (fun a kv => storeF a kv.1 (assigned_value ct kv.1 kv.2)) fs,
         none) := by
  induction m with
  | nil => intro fs _; rfl
  | cons kv rest ih =>
    obtain ⟨k, v⟩ := kv
    intro fs hall
    simp only [List.all_cons, Bool.and_eq_true] at hall
    obtain ⟨h1, h2⟩ := hall
    unfold trait_set_list
    cases hct : lookupA ct k with
    | none =>
      simp only [hct]
      have hav : assigned_value ct k v = v := by simp [assigned_value, hct]
      rw [List.foldl_cons, hav]
      exact ih _ h2
    | some t =>
      simp only [hct]
      have hex : ∃ v', coerce_assign t v = some v' := by
        have h1' := h1
        simp only [can_assign, hct, Option.isSome_iff_exists] at h1'
        exact h1'
      obtain ⟨v', hv'⟩ := hex
      simp only [hv']
      have hav : assigned_value ct k v = v' := by
        simp [assigned_value, hct, hv']
      rw [List.foldl_cons, hav]
      exact ih _ h2

/-- A bulk store leaves keys outside the mapping untouched. -/
theorem lookupA_fold_store_not_mem (ct : CT) (m : List (String × PyVal)) :
    ∀ (fs : Fields) (k : String), k ∉ m.map Prod.fst →
    lookupA
      (m.foldl (fun a kv => storeF a kv.1 (assigned_value ct kv.1 kv.2)) fs)
      k = lookupA fs k := by
  induction m with
  | nil => intro fs k _; rfl
  | cons kv rest ih =>
    obtain ⟨k0, v0⟩ := kv
    intro fs k hk
    simp only [List.map_cons, List.mem_cons, not_or] at hk
    obtain ⟨hk1, hk2⟩ := hk
    rw [List.foldl_cons, ih _ _ hk2]
    exact lookupA_storeF_ne _ _ _ _ (by simpa using hk1)

/-- A bulk store assigns every key of a duplicate-free mapping to its
(coerced) value. -/
theorem lookupA_fold_store_mem (ct : CT) (m : List (String × PyVal)) :
    ∀ (fs : Fields) (k : String) (v : PyVal), (m.map Prod.fst).Nodup →
    (k, v) ∈ m →
    lookupA
      (m.foldl (fun a kv => storeF a kv.1 (assigned_value ct kv.1 kv.2)) fs)
      k = some (assigned_value ct k v) := by
  induction m with
  | nil => intro _ _ _ _ hmem; cases hmem
  | cons kv rest ih =>
    obtain ⟨k0, v0⟩ := kv
    intro fs k v hnd hmem
    simp only [List.map_cons, List.nodup_cons] at hnd
    obtain ⟨hnotin, hnd'⟩ := hnd
    rw [List.foldl_cons]
    rcases List.mem_cons.mp hmem with heq | hin
    · injection heq with hk hv
      subst hk
      subst hv
      rw [lookupA_fold_store_not_mem ct rest _ k hnotin]
      exact lookupA_storeF_self _ _ _
    · exact ih _ _ _ hnd' hin

/-- An `Except` bind that returned `ok` decomposes into an `ok` first
stage and a successful continuation. -/
theorem except_bind_ok {ε α β : Type} (x : Except ε α) (f : α → Except ε β)
    (b : β) (h : (x >>= f) = Except.ok b) :
    ∃ a, x = Except.ok a ∧ f a = Except.ok b := by
  cases x with
  | error e =>
    simp only [bind, Except.bind] at h
    exact Except.noConfusion h
  | ok a => exact ⟨a, rfl, h⟩

/-- A successful `ClassModel` construction yields a model-side object. -/
theorem model_class_init_ok_shape (fuel : Nat) (reg : Reg) (c : DynClass)
    (obj : Option PyVal) (r : Reg) (w : PyVal)
    (h : model_class_init fuel reg c obj = Except.ok (r, w)) :
    is_modelish w = true := by
  cases fuel with
  | zero => simp [model_class_init] at h
  | succ f =>
    cases c with
    | listClass a b d => simp [model_class_init] at h
    | listTraitH t => simp [model_class_init] at h
    | modelClass nm ct tp =>
      cases obj with
      | none =>
        simp only [model_class_init] at h
        injection Except.ok.inj h with h1 h2
        subst h2
        rfl
      | some o =>
        cases ho : vars_of o with
        | some attrs =>
          simp only [model_class_init, ho] at h
          obtain ⟨⟨rg, ct', fl⟩, hx, hf⟩ := except_bind_ok _ _ _ h
          injection Except.ok.inj hf with h1 h2
          subst h2
          rfl
        | none =>
          cases o with
          | vDict kvs =>
            simp only [model_class_init, ho] at h
            obtain ⟨⟨rg, ct', fl⟩, hx, hf⟩ := except_bind_ok _ _ _ h
            injection Except.ok.inj hf with h1 h2
            subst h2
            rfl
          | vBool b => simp [model_class_init, ho] at h
          | vInt n => simp [model_class_init, ho] at h
          | vStr s => simp [model_class_init, ho] at h
          | vNone =>
            simp only [model_class_init, ho] at h
            injection Except.ok.inj h with h1 h2
            subst h2
            rfl
          | vList xs => simp [model_class_init, ho] at h
          | vObj cls attrs => simp [vars_of] at ho
          | classModelInst a b d e => simp [model_class_init, ho] at h
          | genericTraitInst a b d e => simp [model_class_init, ho] at h
          | listModelInst a b d e => simp [model_class_init, ho] at h
          | traitObjVal t => simp [model_class_init, ho] at h

/-- A successful `ListClassModel` construction yields a model-side
object. -/
theorem list_model_init_ok_shape (fuel : Nat) (reg : Reg) (c : DynClass)
    (obj : Option PyVal) (r : Reg) (w : PyVal)
    (h : list_model_init fuel reg c obj = Except.ok (r, w)) :
    is_modelish w = true := by
  cases fuel with
  | zero => simp [list_model_init] at h
  | succ f =>
    cases c with
    | modelClass a b d => simp [list_model_init] at h
    | listTraitH t => simp [list_model_init] at h
    | listClass nm innerT origCls =>
      cases innerT with
      | innerNone => simp [list_model_init] at h
      | innerAny =>
        cases obj with
        | none =>
          simp only [list_model_init] at h
          injection Except.ok.inj h with h1 h2
          subst h2
          rfl
        | some o =>
          simp only [list_model_init] at h
          by_cases hl : is_list o = true
          · simp only [hl, if_true] at h
            obtain ⟨⟨rg, mat⟩, hx, hf⟩ := except_bind_ok _ _ _ h
            injection Except.ok.inj hf with h1 h2
            subst h2
            rfl
          · simp only [Bool.not_eq_true] at hl
            simp only [hl, Bool.false_eq_true, if_false] at h
            injection Except.ok.inj h with h1 h2
            subst h2
            rfl
      | innerModel mc =>
        cases obj with
        | none =>
          simp only [list_model_init] at h
          injection Except.ok.inj h with h1 h2
          subst h2
          rfl
        | some o =>
          simp only [list_model_init] at h
          by_cases hl : is_list o = true
          · simp only [hl, if_true] at h
            obtain ⟨⟨rg, mat⟩, hx, hf⟩ := except_bind_ok _ _ _ h
            injection Except.ok.inj hf with h1 h2
            subst h2
            rfl
          · simp only [Bool.not_eq_true] at hl
            simp only [hl, Bool.false_eq_true, if_false] at h
            injection Except.ok.inj h with h1 h2
            subst h2
            rfl

/-- A successful `GenericTrait` construction yields a model-side object. -/
theorem generic_trait_init_ok_shape (fuel : Nat) (reg : Reg) (obj : PyVal)
    (asList : Bool) (r : Reg) (w : PyVal)
    (h : generic_trait_init fuel reg obj asList = Except.ok (r, w)) :
    is_modelish w = true := by
  cases fuel with
  | zero => simp [generic_trait_init] at h
  | succ f =>
    simp only [generic_trait_init] at h
    obtain ⟨⟨props, orig, isDict⟩, hx, hf⟩ := except_bind_ok _ _ _ h
    obtain ⟨⟨rg, tr, ed⟩, hy, hg⟩ := except_bind_ok _ _ _ hf
    cases hsa : set_all tr [] ed with
    | none =>
      simp only [hsa] at hg
      exact Except.noConfusion hg
    | some flds =>
      simp only [hsa] at hg
      injection Except.ok.inj hg with h1 h2
      subst h2
      rfl

/-- A successful handler instantiation yields a model-side object. -/
theorem instantiate_class_ok_shape (fuel : Nat) (reg : Reg) (c : DynClass)
    (v : PyVal) (r : Reg) (w : PyVal)
    (h : instantiate_class fuel reg c v = Except.ok (r, w)) :
    is_modelish w = true := by
  cases fuel with
  | zero => simp [instantiate_class] at h
  | succ f =>
    cases c with
    | modelClass a b d =>
      simp only [instantiate_class] at h
      exact model_class_init_ok_shape f reg _ _ r w h
    | listClass a b d =>
      simp only [instantiate_class] at h
      exact list_model_init_ok_shape f reg _ _ r w h
    | listTraitH t =>
      simp only [instantiate_class] at h
      injection Except.ok.inj h with h1 h2
      subst h2
      rfl

/-- Successful generic synthesis for a non-list value yields a model-side
object. -/
theorem create_generic_trait_ok_shape (fuel : Nat) (reg : Reg) (v : PyVal)
    (r : Reg) (i : TraitK) (w : PyVal) (hl : is_list v = false)
    (h : create_generic_trait fuel reg v = Except.ok (r, i, w)) :
    is_modelish w = true := by
  cases fuel with
  | zero => simp [create_generic_trait] at h
  | succ f =>
    simp only [create_generic_trait, hl, Bool.false_eq_true, if_false] at h
    cases ho : vars_of v with
    | none =>
      simp only [ho] at h
      obtain ⟨⟨rg, inst⟩, hx, hf⟩ := except_bind_ok _ _ _ h
      injection Except.ok.inj hf with h1 h2
      injection h2 with h3 h4
      subst h4
      exact generic_trait_init_ok_shape f reg v false rg inst hx
    | some props =>
      simp only [ho] at h
      obtain ⟨⟨rg, newModel⟩, hx, hf⟩ := except_bind_ok _ _ _ h
      obtain ⟨⟨rg2, inst⟩, hy, hg⟩ := except_bind_ok _ _ _ hf
      injection Except.ok.inj hg with h1 h2
      injection h2 with h3 h4
      subst h4
      exact model_class_init_ok_shape f rg _ _ rg2 inst hy

/-- Successful synthesis of a trait object for a non-list value yields a
model-side object (a `HasTraits` instance or a cloned trait handler),
never a raw scalar, mapping or object. -/
theorem get_or_create_trait_for_ok_shape (fuel : Nat) (reg : Reg)
    (v : PyVal) (r : Reg) (i : TraitK) (w : PyVal) (hl : is_list v = false)
    (h : get_or_create_trait_for fuel reg v = Except.ok (r, i, w)) :
    is_modelish w = true := by
  cases fuel with
  | zero => simp [get_or_create_trait_for] at h
  | succ f =>
    simp only [get_or_create_trait_for] at h
    by_cases hht : is_has_traits v = true
    · simp only [hht, if_true] at h
      injection Except.ok.inj h with h1 h2
      injection h2 with h3 h4
      subst h4
      cases v with
      | classModelInst a b d e => rfl
      | genericTraitInst a b d e => rfl
      | listModelInst a b d e => rfl
      | vBool b => simp [is_has_traits] at hht
      | vInt n => simp [is_has_traits] at hht
      | vStr s => simp [is_has_traits] at hht
      | vNone => simp [is_has_traits] at hht
      | vDict kvs => simp [is_has_traits] at hht
      | vList xs => simp [is_has_traits] at hht
      | vObj a b => simp [is_has_traits] at hht
      | traitObjVal t => simp [is_has_traits] at hht
    · simp only [Bool.not_eq_true] at hht
      simp only [hht, Bool.false_eq_true, if_false] at h
      cases hgt : get_obj_t reg (type_name v) with
      | some trait_t =>
        simp only [hgt] at h
        obtain ⟨⟨rg, obj⟩, hx, hf⟩ := except_bind_ok _ _ _ h
        injection Except.ok.inj hf with h1 h2
        injection h2 with h3 h4
        subst h4
        exact instantiate_class_ok_shape f reg trait_t v rg obj hx
      | none =>
        simp only [hgt] at h
        exact create_generic_trait_ok_shape f reg v r i w hl h

/-- Model-side objects do not validate as `Int` and are not sequence-like
(`ListClassModel` has `__add__` but no `__len__`). -/
theorem is_modelish_not_int (w : PyVal) (h : is_modelish w = true) :
    validate_trait TraitK.tInt w = false ∧ is_list w = false := by
  cases w with
  | classModelInst a b d e => exact ⟨rfl, rfl⟩
  | genericTraitInst a b d e => exact ⟨rfl, rfl⟩
  | listModelInst a b d e => exact ⟨rfl, rfl⟩
  | traitObjVal t => exact ⟨rfl, rfl⟩
  | vBool b => simp [is_modelish] at h
  | vInt n => simp [is_modelish] at h
  | vStr s => simp [is_modelish] at h
  | vNone => simp [is_modelish] at h
  | vDict kvs => simp [is_modelish] at h
  | vList xs => simp [is_modelish] at h
  | vObj a b => simp [is_modelish] at h

set_option maxHeartbeats 1600000 in
/-- C7: for every candidate field value that is neither of a registered
base type nor sequence-like (so it fits neither the declared `Int` kind
nor the sequence reroute — whatever `get_or_create_trait_for` makes of it
is a model-side object that cannot validate as `Int`, and a conversion
failure is swallowed by the broad `except Exception`), `set_init` drops
that single field with a logged message, raises nothing, and still
assigns all the remaining fields of the instance. -/
theorem C7_bad_field_dropped_others_survive (f : Nat) (reg : Reg)
    (v : PyVal) (h1 : is_base_val v = false) (h2 : is_list v = false) :
    ∃ reg', set_init (f + 8) reg c7Traits
        [("f1", PyVal.vInt 3), ("bad", v), ("f2", PyVal.vInt 4)]
      = Except.ok (reg', c7Traits,
          [("f1", PyVal.vInt 3), ("f2", PyVal.vInt 4)]) := by
  cases v with
    | vBool b => exact absurd h1 (by simp [is_base_val])
    | vInt n => exact absurd h1 (by simp [is_base_val])
    | vStr s => exact absurd h2 (by simp [is_list])
    | vNone => exact absurd h1 (by simp [is_base_val])
    | vList xs => exact absurd h2 (by simp [is_list])
    | vDict kvs =>
      cases hgt : get_obj_t reg (type_name (PyVal.vDict kvs)) with
      | some c =>
        cases c with
        | listTraitH t0 =>
          refine ⟨reg, ?_⟩
          simp only [set_init, set_init_go, set_init_field, hgt]
          rfl
        | modelClass n0 c0 tp0 =>
          cases hoc : get_or_create_trait_for (f + 4) reg (PyVal.vDict kvs) with
          | error e =>
            refine ⟨reg, ?_⟩
            simp only [set_init, set_init_go, set_init_field, hgt, hoc]
            rfl
          | ok x =>
            obtain ⟨rg, i, w⟩ := x
            have hw := get_or_create_trait_for_ok_shape (f + 4) reg (PyVal.vDict kvs)
              rg i w rfl hoc
            obtain ⟨hv, hlw⟩ := is_modelish_not_int w hw
            refine ⟨rg, ?_⟩
            simp only [set_init, set_init_go, set_init_field, hgt, hoc,
              show lookupA c7Traits "bad" = some TraitK.tInt from rfl, hv, hlw,
              Bool.false_eq_true, if_false]
            rfl
        | listClass n0 i0 o0 =>
          cases hoc : get_or_create_trait_for (f + 4) reg (PyVal.vDict kvs) with
          | error e =>
            refine ⟨reg, ?_⟩
            simp only [set_init, set_init_go, set_init_field, hgt, hoc]
            rfl
          | ok x =>
            obtain ⟨rg, i, w⟩ := x
            have hw := get_or_create_trait_for_ok_shape (f + 4) reg (PyVal.vDict kvs)
              rg i w rfl hoc
            obtain ⟨hv, hlw⟩ := is_modelish_not_int w hw
            refine ⟨rg, ?_⟩
            simp only [set_init, set_init_go, set_init_field, hgt, hoc,
              show lookupA c7Traits "bad" = some TraitK.tInt from rfl, hv, hlw,
              Bool.false_eq_true, if_false]
            rfl
      | none =>
        cases hoc : get_or_create_trait_for (f + 4) reg (PyVal.vDict kvs) with
        | error e =>
          refine ⟨reg, ?_⟩
          simp only [set_init, set_init_go, set_init_field, hgt, hoc]
          rfl
        | ok x =>
          obtain ⟨rg, i, w⟩ := x
          have hw := get_or_create_trait_for_ok_shape (f + 4) reg (PyVal.vDict kvs)
            rg i w rfl hoc
          obtain ⟨hv, hlw⟩ := is_modelish_not_int w hw
          refine ⟨rg, ?_⟩
          simp only [set_init, set_init_go, set_init_field, hgt, hoc,
            show lookupA c7Traits "bad" = some TraitK.tInt from rfl, hv, hlw,
            Bool.false_eq_true, if_false]
          rfl
    | vObj cls attrs =>
      cases hgt : get_obj_t reg (type_name (PyVal.vObj cls attrs)) with
      | some c =>
        cases c with
        | listTraitH t0 =>
          refine ⟨reg, ?_⟩
          simp only [set_init, set_init_go, set_init_field, hgt]
          rfl
        | modelClass n0 c0 tp0 =>
          cases hoc : get_or_create_trait_for (f + 4) reg (PyVal.vObj cls attrs) with
          | error e =>
            refine ⟨reg, ?_⟩
            simp only [set_init, set_init_go, set_init_field, hgt, hoc]
            rfl
          | ok x =>
            obtain ⟨rg, i, w⟩ := x
            have hw := get_or_create_trait_for_ok_shape (f + 4) reg (PyVal.vObj cls attrs)
              rg i w rfl hoc
            obtain ⟨hv, hlw⟩ := is_modelish_not_int w hw
            refine ⟨rg, ?_⟩
            simp only [set_init, set_init_go, set_init_field, hgt, hoc,
              show lookupA c7Traits "bad" = some TraitK.tInt from rfl, hv, hlw,
              Bool.false_eq_true, if_false]
            rfl
        | listClass n0 i0 o0 =>
          cases hoc : get_or_create_trait_for (f + 4) reg (PyVal.vObj cls attrs) with
          | error e =>
            refine ⟨reg, ?_⟩
            simp only [set_init, set_init_go, set_init_field, hgt, hoc]
            rfl
          | ok x =>
            obtain ⟨rg, i, w⟩ := x
            have hw := get_or_create_trait_for_ok_shape (f + 4) reg (PyVal.vObj cls attrs)
              rg i w rfl hoc
            obtain ⟨hv, hlw⟩ := is_modelish_not_int w hw
            refine ⟨rg, ?_⟩
            simp only [set_init, set_init_go, set_init_field, hgt, hoc,
              show lookupA c7Traits "bad" = some TraitK.tInt from rfl, hv, hlw,
              Bool.false_eq_true, if_false]
            rfl
      | none =>
        cases hoc : get_or_create_trait_for (f + 4) reg (PyVal.vObj cls attrs) with
        | error e =>
          refine ⟨reg, ?_⟩
          simp only [set_init, set_init_go, set_init_field, hgt, hoc]
          rfl
        | ok x =>
          obtain ⟨rg, i, w⟩ := x
          have hw := get_or_create_trait_for_ok_shape (f + 4) reg (PyVal.vObj cls attrs)
            rg i w rfl hoc
          obtain ⟨hv, hlw⟩ := is_modelish_not_int w hw
          refine ⟨rg, ?_⟩
          simp only [set_init, set_init_go, set_init_field, hgt, hoc,
            show lookupA c7Traits "bad" = some TraitK.tInt from rfl, hv, hlw,
            Bool.false_eq_true, if_false]
          rfl
    | classModelInst a1 a2 a3 a4 =>
      cases hgt : get_obj_t reg (type_name (PyVal.classModelInst a1 a2 a3 a4)) with
      | some c =>
        cases c with
        | listTraitH t0 =>
          refine ⟨reg, ?_⟩
          simp only [set_init, set_init_go, set_init_field, hgt]
          rfl
        | modelClass n0 c0 tp0 =>
          cases hoc : get_or_create_trait_for (f + 4) reg (PyVal.classModelInst a1 a2 a3 a4) with
          | error e =>
            refine ⟨reg, ?_⟩
            simp only [set_init, set_init_go, set_init_field, hgt, hoc]
            rfl
          | ok x =>
            obtain ⟨rg, i, w⟩ := x
            have hw := get_or_create_trait_for_ok_shape (f + 4) reg (PyVal.classModelInst a1 a2 a3 a4)
              rg i w rfl hoc
            obtain ⟨hv, hlw⟩ := is_modelish_not_int w hw
            refine ⟨rg, ?_⟩
            simp only [set_init, set_init_go, set_init_field, hgt, hoc,
              show lookupA c7Traits "bad" = some TraitK.tInt from rfl, hv, hlw,
              Bool.false_eq_true, if_false]
            rfl
        | listClass n0 i0 o0 =>
          cases hoc : get_or_create_trait_for (f + 4) reg (PyVal.classModelInst a1 a2 a3 a4) with
          | error e =>
            refine ⟨reg, ?_⟩
            simp only [set_init, set_init_go, set_init_field, hgt, hoc]
            rfl
          | ok x =>
            obtain ⟨rg, i, w⟩ := x
            have hw := get_or_create_trait_for_ok_shape (f + 4) reg (PyVal.classModelInst a1 a2 a3 a4)
              rg i w rfl hoc
            obtain ⟨hv, hlw⟩ := is_modelish_not_int w hw
            refine ⟨rg, ?_⟩
            simp only [set_init, set_init_go, set_init_field, hgt, hoc,
              show lookupA c7Traits "bad" = some TraitK.tInt from rfl, hv, hlw,
              Bool.false_eq_true, if_false]
            rfl
      | none =>
        cases hoc : get_or_create_trait_for (f + 4) reg (PyVal.classModelInst a1 a2 a3 a4) with
        | error e =>
          refine ⟨reg, ?_⟩
          simp only [set_init, set_init_go, set_init_field, hgt, hoc]
          rfl
        | ok x =>
          obtain ⟨rg, i, w⟩ := x
          have hw := get_or_create_trait_for_ok_shape (f + 4) reg (PyVal.classModelInst a1 a2 a3 a4)
            rg i w rfl hoc
          obtain ⟨hv, hlw⟩ := is_modelish_not_int w hw
          refine ⟨rg, ?_⟩
          simp only [set_init, set_init_go, set_init_field, hgt, hoc,
            show lookupA c7Traits "bad" = some TraitK.tInt from rfl, hv, hlw,
            Bool.false_eq_true, if_false]
          rfl
    | genericTraitInst a1 a2 a3 a4 =>
      cases hgt : get_obj_t reg (type_name (PyVal.genericTraitInst a1 a2 a3 a4)) with
      | some c =>
        cases c with
        | listTraitH t0 =>
          refine ⟨reg, ?_⟩
          simp only [set_init, set_init_go, set_init_field, hgt]
          rfl
        | modelClass n0 c0 tp0 =>
          cases hoc : get_or_create_trait_for (f + 4) reg (PyVal.genericTraitInst a1 a2 a3 a4) with
          | error e =>
            refine ⟨reg, ?_⟩
            simp only [set_init, set_init_go, set_init_field, hgt, hoc]
            rfl
          | ok x =>
            obtain ⟨rg, i, w⟩ := x
            have hw := get_or_create_trait_for_ok_shape (f + 4) reg (PyVal.genericTraitInst a1 a2 a3 a4)
              rg i w rfl hoc
            obtain ⟨hv, hlw⟩ := is_modelish_not_int w hw
            refine ⟨rg, ?_⟩
            simp only [set_init, set_init_go, set_init_field, hgt, hoc,
              show lookupA c7Traits "bad" = some TraitK.tInt from rfl, hv, hlw,
              Bool.false_eq_true, if_false]
            rfl
        | listClass n0 i0 o0 =>
          cases hoc : get_or_create_trait_for (f + 4) reg (PyVal.genericTraitInst a1 a2 a3 a4) with
          | error e =>
            refine ⟨reg, ?_⟩
            simp only [set_init, set_init_go, set_init_field, hgt, hoc]
            rfl
          | ok x =>
            obtain ⟨rg, i, w⟩ := x
            have hw := get_or_create_trait_for_ok_shape (f + 4) reg (PyVal.genericTraitInst a1 a2 a3 a4)
              rg i w rfl hoc
            obtain ⟨hv, hlw⟩ := is_modelish_not_int w hw
            refine ⟨rg, ?_⟩
            simp only [set_init, set_init_go, set_init_field, hgt, hoc,
              show lookupA c7Traits "bad" = some TraitK.tInt from rfl, hv, hlw,
              Bool.false_eq_true, if_false]
            rfl
      | none =>
        cases hoc : get_or_create_trait_for (f + 4) reg (PyVal.genericTraitInst a1 a2 a3 a4) with
        | error e =>
          refine ⟨reg, ?_⟩
          simp only [set_init, set_init_go, set_init_field, hgt, hoc]
          rfl
        | ok x =>
          obtain ⟨rg, i, w⟩ := x
          have hw := get_or_create_trait_for_ok_shape (f + 4) reg (PyVal.genericTraitInst a1 a2 a3 a4)
            rg i w rfl hoc
          obtain ⟨hv, hlw⟩ := is_modelish_not_int w hw
          refine ⟨rg, ?_⟩
          simp only [set_init, set_init_go, set_init_field, hgt, hoc,
            show lookupA c7Traits "bad" = some TraitK.tInt from rfl, hv, hlw,
            Bool.false_eq_true, if_false]
          rfl
    | listModelInst a1 a2 a3 a4 =>
      cases hgt : get_obj_t reg (type_name (PyVal.listModelInst a1 a2 a3 a4)) with
      | some c =>
        cases c with
        | listTraitH t0 =>
          refine ⟨reg, ?_⟩
          simp only [set_init, set_init_go, set_init_field, hgt]
          rfl
        | modelClass n0 c0 tp0 =>
          cases hoc : get_or_create_trait_for (f + 4) reg (PyVal.listModelInst a1 a2 a3 a4) with
          | error e =>
            refine ⟨reg, ?_⟩
            simp only [set_init, set_init_go, set_init_field, hgt, hoc]
            rfl
          | ok x =>
            obtain ⟨rg, i, w⟩ := x
            have hw := get_or_create_trait_for_ok_shape (f + 4) reg (PyVal.listModelInst a1 a2 a3 a4)
              rg i w rfl hoc
            obtain ⟨hv, hlw⟩ := is_modelish_not_int w hw
            refine ⟨rg, ?_⟩
            simp only [set_init, set_init_go, set_init_field, hgt, hoc,
              show lookupA c7Traits "bad" = some TraitK.tInt from rfl, hv, hlw,
              Bool.false_eq_true, if_false]
            rfl
        | listClass n0 i0 o0 =>
          cases hoc : get_or_create_trait_for (f + 4) reg (PyVal.listModelInst a1 a2 a3 a4) with
          | error e =>
            refine ⟨reg, ?_⟩
            simp only [set_init, set_init_go, set_init_field, hgt, hoc]
            rfl
          | ok x =>
            obtain ⟨rg, i, w⟩ := x
            have hw := get_or_create_trait_for_ok_shape (f + 4) reg (PyVal.listModelInst a1 a2 a3 a4)
              rg i w rfl hoc
            obtain ⟨hv, hlw⟩ := is_modelish_not_int w hw
            refine ⟨rg, ?_⟩
            simp only [set_init, set_init_go, set_init_field, hgt, hoc,
              show lookupA c7Traits "bad" = some TraitK.tInt from rfl, hv, hlw,
              Bool.false_eq_true, if_false]
            rfl
      | none =>
        cases hoc : get_or_create_trait_for (f + 4) reg (PyVal.listModelInst a1 a2 a3 a4) with
        | error e =>
          refine ⟨reg, ?_⟩
          simp only [set_init, set_init_go, set_init_field, hgt, hoc]
          rfl
        | ok x =>
          obtain ⟨rg, i, w⟩ := x
          have hw := get_or_create_trait_for_ok_shape (f + 4) reg (PyVal.listModelInst a1 a2 a3 a4)
            rg i w rfl hoc
          obtain ⟨hv, hlw⟩ := is_modelish_not_int w hw
          refine ⟨rg, ?_⟩
          simp only [set_init, set_init_go, set_init_field, hgt, hoc,
            show lookupA c7Traits "bad" = some TraitK.tInt from rfl, hv, hlw,
            Bool.false_eq_true, if_false]
          rfl
    | traitObjVal t1 =>
      cases hgt : get_obj_t reg (type_name (PyVal.traitObjVal t1)) with
      | some c =>
        cases c with
        | listTraitH t0 =>
          refine ⟨reg, ?_⟩
          simp only [set_init, set_init_go, set_init_field, hgt]
          rfl
        | modelClass n0 c0 tp0 =>
          cases hoc : get_or_create_trait_for (f + 4) reg (PyVal.traitObjVal t1) with
          | error e =>
            refine ⟨reg, ?_⟩
            simp only [set_init, set_init_go, set_init_field, hgt, hoc]
            rfl
          | ok x =>
            obtain ⟨rg, i, w⟩ := x
            have hw := get_or_create_trait_for_ok_shape (f + 4) reg (PyVal.traitObjVal t1)
              rg i w rfl hoc
            obtain ⟨hv, hlw⟩ := is_modelish_not_int w hw
            refine ⟨rg, ?_⟩
            simp only [set_init, set_init_go, set_init_field, hgt, hoc,
              show lookupA c7Traits "bad" = some TraitK.tInt from rfl, hv, hlw,
              Bool.false_eq_true, if_false]
            rfl
        | listClass n0 i0 o0 =>
          cases hoc : get_or_create_trait_for (f + 4) reg (PyVal.traitObjVal t1) with
          | error e =>
            refine ⟨reg, ?_⟩
            simp only [set_init, set_init_go, set_init_field, hgt, hoc]
            rfl
          | ok x =>
            obtain ⟨rg, i, w⟩ := x
            have hw := get_or_create_trait_for_ok_shape (f + 4) reg (PyVal.traitObjVal t1)
              rg i w rfl hoc
            obtain ⟨hv, hlw⟩ := is_modelish_not_int w hw
            refine ⟨rg, ?_⟩
            simp only [set_init, set_init_go, set_init_field, hgt, hoc,
              show lookupA c7Traits "bad" = some TraitK.tInt from rfl, hv, hlw,
              Bool.false_eq_true, if_false]
            rfl
      | none =>
        cases hoc : get_or_create_trait_for (f + 4) reg (PyVal.traitObjVal t1) with
        | error e =>
          refine ⟨reg, ?_⟩
          simp only [set_init, set_init_go, set_init_field, hgt, hoc]
          rfl
        | ok x =>
          obtain ⟨rg, i, w⟩ := x
          have hw := get_or_create_trait_for_ok_shape (f + 4) reg (PyVal.traitObjVal t1)
            rg i w rfl hoc
          obtain ⟨hv, hlw⟩ := is_modelish_not_int w hw
          refine ⟨rg, ?_⟩
          simp only [set_init, set_init_go, set_init_field, hgt, hoc,
            show lookupA c7Traits "bad" = some TraitK.tInt from rfl, hv, hlw,
            Bool.false_eq_true, if_false]
          rfl

/-- Witness for C7: a mapping-valued candidate for the `Int` field `bad`
is dropped, the surrounding fields are assigned, nothing is raised. -/
theorem C7_bad_field_dropped_others_survive_witness :
    ∃ reg', set_init 8 emptyReg c7Traits
        [("f1", PyVal.vInt 3), ("bad", PyVal.vDict [("z", PyVal.vInt 9)]),
         ("f2", PyVal.vInt 4)]
      = Except.ok (reg', c7Traits,
          [("f1", PyVal.vInt 3), ("f2", PyVal.vInt 4)]) :=
  C7_bad_field_dropped_others_survive 0 emptyReg
    (PyVal.vDict [("z", PyVal.vInt 9)]) rfl rfl

/-- C1 amended: memoization holds at the get-or-create entry points —
when an entry is already registered for the name, both
`_get_or_create_ClassListOf` and `get_or_create_ModelClass_for_obj`
return the stored schema unchanged and leave the registry untouched.
(The entry itself is not immutable: per the counterexample, synthesizing
a self-nested value re-registers and overwrites the entry mid-run.) -/
theorem C1_amended_get_or_create_memoization (reg : Reg) (inner : DynClass)
    (orig : Option String) (c : DynClass) (fuel : Nat) (reg2 : Reg)
    (v : PyVal) (c' : DynClass)
    (h1 : lookupA reg.dyn ("ListOf" ++ className inner) = some c)
    (h2 : lookupA reg2.dyn (type_name v) = some c') :
    get_or_create_ClassListOf reg inner orig = (c, reg) ∧
    get_or_create_ModelClass_for_obj (fuel + 1) reg2 v
      = Except.ok (reg2, c') := by
  constructor
  · simp [get_or_create_ClassListOf, h1]
  · simp [get_or_create_ModelClass_for_obj, h2]
    rfl

/-- Witness for C1: get-or-create on registries already holding the
`ListOfM` and `Node` entries returns those entries unchanged. -/
theorem C1_amended_get_or_create_memoization_witness :
    get_or_create_ClassListOf (Reg.mk [] [("ListOfM", listOfMSchema)])
        mSchema none
      = (listOfMSchema, Reg.mk [] [("ListOfM", listOfMSchema)]) ∧
    get_or_create_ModelClass_for_obj 1 (Reg.mk [] [("Node", nodeSchema1)])
        innerNode
      = Except.ok (Reg.mk [] [("Node", nodeSchema1)], nodeSchema1) :=
  C1_amended_get_or_create_memoization (Reg.mk [] [("ListOfM", listOfMSchema)])
    mSchema none listOfMSchema 0 (Reg.mk [] [("Node", nodeSchema1)])
    innerNode nodeSchema1 rfl rfl

/-- C4 amended: selecting a declared template whose values all validate
against the fields' declared kinds assigns exactly the mapped fields (to
their coerced values), leaves every unmentioned field untouched and
raises nothing; selecting an undeclared name (including the no-selection
sentinel) resets the whole instance to declared defaults.  Atomicity
holds in these cases — it fails only when a template value fails
validation (see the counterexample). -/
theorem C4_amended_template_application (nm : String) (ct : CT)
    (tmpl : List (String × List (String × PyVal))) (fs : Fields)
    (name bogus : String) (m : List (String × PyVal))
    (hlk : lookupA tmpl name = some m)
    (hok : m.all (fun kv => can_assign ct kv.1 kv.2) = true)
    (hnd : (m.map Prod.fst).Nodup)
    (hb : lookupA tmpl bogus = none) :
    (templates_changed (DynClass.modelClass nm ct tmpl) fs name).2 = none ∧
    (∀ k v, (k, v) ∈ m →
      lookupA (templates_changed (DynClass.modelClass nm ct tmpl) fs name).1 k
        = some (assigned_value ct k v)) ∧
    (∀ k, k ∉ m.map Prod.fst →
      lookupA (templates_changed (DynClass.modelClass nm ct tmpl) fs name).1 k
        = lookupA fs k) ∧
    templates_changed (DynClass.modelClass nm ct tmpl) fs bogus
      = ([], none) := by
  have hrun : templates_changed (DynClass.modelClass nm ct tmpl) fs name
      = (m.foldl (fun a kv => storeF a kv.1 (assigned_value ct kv.1 kv.2)) fs,
         none) := by
    simp only [templates_changed, hlk]
    exact trait_set_list_all_ok ct m fs hok
  refine ⟨by rw [hrun], ?_, ?_, ?_⟩
  · intro k v hmem
    rw [hrun]
    exact lookupA_fold_store_mem ct m fs k v hnd hmem
  · intro k hk
    rw [hrun]
    exact lookupA_fold_store_not_mem ct m fs k hk
  · simp [templates_changed, hb]

/-- Witness for C4: applying the declared template `user1` assigns both
mapped fields, leaves an unmentioned key untouched and reports no error;
selecting the empty sentinel resets the instance. -/
theorem C4_amended_template_application_witness :
    (templates_changed (DynClass.modelClass "User" c4wTraits c4wTemplates)
        c4wFields "user1").2 = none ∧
    lookupA (templates_changed (DynClass.modelClass "User" c4wTraits
        c4wTemplates) c4wFields "user1").1 "number"
      = some (assigned_value c4wTraits "number" (PyVal.vInt 1)) ∧
    lookupA (templates_changed (DynClass.modelClass "User" c4wTraits
        c4wTemplates) c4wFields "user1").1 "other"
      = lookupA c4wFields "other" ∧
    templates_changed (DynClass.modelClass "User" c4wTraits c4wTemplates)
        c4wFields "" = ([], none) := by
  have T := C4_amended_template_application "User" c4wTraits c4wTemplates
    c4wFields "user1" "" [("name", PyVal.vStr "F1"), ("number", PyVal.vInt 1)]
    rfl rfl (by decide) rfl
  exact ⟨T.1,
    T.2.1 "number" (PyVal.vInt 1)
      (List.mem_cons_of_mem _ (List.mem_cons_self _ _)),
    T.2.2.1 "other" (by decide), T.2.2.2⟩

/-- C8 amended: registration is a plain overwrite — after registering a
schema for a name, lookup yields that schema (last registration wins, no
error is possible); re-registering the schema already mapped changes no
lookup (idempotent no-op); and an api-registered schema takes precedence
over any dynamically created schema in `get_obj_t`. -/
theorem C8_amended_register_overwrites_with_precedence (reg : Reg)
    (n : String) (c : DynClass) :
    lookupA (register_api_type_handler reg [(n, c)]).api n = some c ∧
    (lookupA reg.api n = some c →
      ∀ k, lookupA (register_api_type_handler reg [(n, c)]).api k
        = lookupA reg.api k) ∧
    (∀ c', lookupA reg.api n = some c' → get_obj_t reg n = some c') := by
  refine ⟨?_, ?_, ?_⟩
  · simp [register_api_type_handler, insertA, lookupA]
  · intro h k
    simp only [register_api_type_handler, List.foldl, insertA, lookupA]
    by_cases hk : (n == k) = true
    · simp only [hk, if_true]
      have : n = k := by simpa using hk
      subst this
      exact h.symm
    · simp only [Bool.not_eq_true] at hk
      simp [hk]
  · intro c' h
    simp [get_obj_t, h]

/-- Witness for C8: on a registry whose api and dyn maps both bind `T`,
re-registering the identical api schema changes nothing and lookups keep
preferring the api entry over the dyn one. -/
theorem C8_amended_register_overwrites_with_precedence_witness :
    lookupA (register_api_type_handler (Reg.mk [("T", tSchemaA)]
        [("T", tSchemaB)]) [("T", tSchemaA)]).api "T" = some tSchemaA ∧
    lookupA (register_api_type_handler (Reg.mk [("T", tSchemaA)]
        [("T", tSchemaB)]) [("T", tSchemaA)]).api "T"
      = lookupA (Reg.mk [("T", tSchemaA)] [("T", tSchemaB)]).api "T" ∧
    get_obj_t (Reg.mk [("T", tSchemaA)] [("T", tSchemaB)]) "T"
      = some tSchemaA := by
  have T := C8_amended_register_overwrites_with_precedence
    (Reg.mk [("T", tSchemaA)] [("T", tSchemaB)]) "T" tSchemaA
  exact ⟨T.1, T.2.1 rfl "T", T.2.2 tSchemaA rfl⟩
